import Mathlib

/-!
Verification development for the SmartParkingSystem repository.

The definitions below are a shallow embedding of the Python source:
* `models.py`   — the `Slot` and `Transaction` entities (here `ParkSlot`, `Txn`);
* `slot.py`     — the Flask ledger operations `detect_plate` (`/api/detect`),
  `manual_entry` (`/api/entry`), `manual_exit` (`/api/exit`),
  `entry_vehicle_internal`, `exit_vehicle_internal`, `process_payment`;
* `anpr_yolo_easyocr.py` — `correct_ocr_text` and the `FrameAggregator`
  (`add_detection`, `get_consensus`, `is_new_plate`);
* `camera_capture.py` — `string_similarity` (difflib `SequenceMatcher.ratio`)
  and `should_process_plate` with its module-level deduplication state.

Timestamps of the ledger are modelled as natural-number seconds, money and
confidences as rationals, the SQLAlchemy tables as Lean lists in insertion
order (SQLite assigns autoincrement ids in insertion order, and an
un-ordered `first()` returns the first row in that order).
-/

namespace SmartParking

/-! ## Ledger data model (models.py) -/

inductive SlotStatus
  | free
  | occupied
deriving DecidableEq

structure ParkSlot where
  id : Nat
  number : Nat
  status : SlotStatus
  current_txn_id : Option Nat
deriving DecidableEq

inductive PayStatus
  | pending
  | paid
  | failed
deriving DecidableEq

structure Txn where
  id : Nat
  plate : String
  slot_id : Option Nat
  time_in : Nat
  time_out : Option Nat
  duration_minutes : Option Nat
  charge : Option ℚ
  payment_status : PayStatus
deriving DecidableEq

structure Ledger where
  slots : List ParkSlot
  txns : List Txn
  next_txn_id : Nat
deriving DecidableEq

/-! ## Constants (slot.py) -/

def RATE_PER_MINUTE : ℚ := 5
def MIN_CHARGE : ℚ := 10

/-- Python's `round(x, 2)`: round to two decimal places.  (Python rounds
half-to-even on floats; every charge produced by `slot.py` is an integral
number of rupees, where the two conventions agree.) -/
def round2 (q : ℚ) : ℚ := (round (q * 100) : ℤ) / 100

/-- Whitespace characters matched by Python's `\s` / `str.strip()` (ASCII). -/
def pySpace (c : Char) : Bool :=
  c = ' ' ∨ c = '\t' ∨ c = '\n' ∨ c = '\r' ∨ c = '\x0b' ∨ c = '\x0c'

/-- `plate.strip().upper()` as applied by the manual entry/exit endpoints. -/
def pyNorm (s : String) : String :=
  String.mk ((((s.toList.dropWhile pySpace).reverse.dropWhile pySpace).reverse).map Char.toUpper)

/-- `Transaction.query.filter_by(plate=plate, time_out=None)` row predicate. -/
def isOpenFor (p : String) (t : Txn) : Bool :=
  t.plate == p && t.time_out.isNone

/-- `.filter_by(plate=plate, time_out=None).first()` is not `none`. -/
def hasOpen (st : Ledger) (p : String) : Bool :=
  (st.txns.find? (isOpenFor p)).isSome

/-- Number of open transactions recorded for a plate. -/
def openCount (st : Ledger) (p : String) : Nat :=
  (st.txns.filter (isOpenFor p)).length

/-- `txn.slot.number if txn.slot else None`. -/
def slotNumOfSid (st : Ledger) (sid : Option Nat) : Option Nat :=
  sid.bind (fun i => (st.slots.find? (fun s => decide (s.id = i))).map ParkSlot.number)

/-- `slot = Slot.query.get(txn.slot_id); slot.status = 'free';
slot.current_txn_id = None` guarded by `if txn.slot_id` / `if slot`. -/
def freeSlotById (slots : List ParkSlot) (sid : Option Nat) : List ParkSlot :=
  match sid with
  | none => slots
  | some i =>
      slots.map (fun s =>
        if s.id = i then { s with status := SlotStatus.free, current_txn_id := none } else s)

/-- The field updates `exit_vehicle_internal` applies to the open transaction:
`time_out = now`, `duration_minutes = ceil(seconds/60)`,
`charge = round(max(MIN_CHARGE, duration * RATE_PER_MINUTE), 2)`,
`payment_status = 'pending'`. -/
def sealTxn (t : Txn) (now : Nat) : Txn :=
  let d : Nat := (now - t.time_in + 59) / 60
  { t with
    time_out := some now
    duration_minutes := some d
    charge := some (round2 (max MIN_CHARGE ((d : ℚ) * RATE_PER_MINUTE)))
    payment_status := PayStatus.pending }

/-- The ORM mutation of the transaction object found by
`filter_by(plate=…, time_out=None).first()`: in the list model, seal the
first open transaction of the plate and keep every other row as it is. -/
def sealOpen (now : Nat) (p : String) : List Txn → List Txn
  | [] => []
  | t :: rest =>
      if isOpenFor p t then sealTxn t now :: rest else t :: sealOpen now p rest

inductive DetectResult
  | badRequest
  | alreadyParked (slotNumber : Option Nat)
  | lotFull
  | entry (slotNumber : Nat) (txnId : Nat)
deriving DecidableEq

inductive EntryResult
  | badRequest
  | alreadyInside
  | noSlots
  | entered (slotId : Nat) (slotNumber : Nat) (txnId : Nat)
deriving DecidableEq

inductive ExitResult
  | badRequest
  | notFound
  | exited (durationMinutes : Nat) (charge : ℚ) (slotNumber : Option Nat)
deriving DecidableEq

/-- `POST /api/detect` (slot.py `detect_plate`).  If the plate already has an
open transaction the call answers 409 ALREADY_PARKED without mutating
anything; otherwise it takes the first free slot and creates a transaction.
Note the faithful modelling of `free_slot.current_txn_id = txn.id`: the
assignment runs before the transaction is flushed, when `txn.id` is still
`None`, so the slot's link column receives `None`. -/
def detect_plate (plate : String) (now : Nat) (st : Ledger) : DetectResult × Ledger :=
  if plate = "" then (DetectResult.badRequest, st)
  else
    match st.txns.find? (isOpenFor plate) with
    | some t => (DetectResult.alreadyParked (slotNumOfSid st t.slot_id), st)
    | none =>
        match st.slots.find? (fun s => decide (s.status = SlotStatus.free)) with
        | none => (DetectResult.lotFull, st)
        | some s =>
            let tid := st.next_txn_id
            let txn : Txn :=
              { id := tid, plate := plate, slot_id := some s.id, time_in := now
                time_out := none, duration_minutes := none, charge := none
                payment_status := PayStatus.pending }
            let slots :=
              st.slots.map (fun u =>
                if u.id = s.id then
                  { u with status := SlotStatus.occupied, current_txn_id := none }
                else u)
            (DetectResult.entry s.number tid, ⟨slots, st.txns ++ [txn], tid + 1⟩)

/-- slot.py `entry_vehicle_internal`: take the first free slot, create the
transaction, `flush()` (which assigns the id), then link the slot to it. -/
def entry_vehicle_internal (plate : String) (now : Nat) (st : Ledger) : EntryResult × Ledger :=
  match st.slots.find? (fun s => decide (s.status = SlotStatus.free)) with
  | none => (EntryResult.noSlots, st)
  | some s =>
      let tid := st.next_txn_id
      let txn : Txn :=
        { id := tid, plate := plate, slot_id := some s.id, time_in := now
          time_out := none, duration_minutes := none, charge := none
          payment_status := PayStatus.pending }
      let slots :=
        st.slots.map (fun u =>
          if u.id = s.id then
            { u with status := SlotStatus.occupied, current_txn_id := some tid }
          else u)
      (EntryResult.entered s.id s.number tid, ⟨slots, st.txns ++ [txn], tid + 1⟩)

/-- `POST /api/entry` (slot.py `manual_entry`). -/
def manual_entry (plateRaw : String) (now : Nat) (st : Ledger) : EntryResult × Ledger :=
  let plate := pyNorm plateRaw
  if plate = "" then (EntryResult.badRequest, st)
  else if (st.txns.find? (isOpenFor plate)).isSome then (EntryResult.alreadyInside, st)
  else entry_vehicle_internal plate now st

/-- slot.py `exit_vehicle_internal`, applied to the open transaction `t`
found by the caller. -/
def exit_vehicle_internal (plate : String) (now : Nat) (t : Txn) (st : Ledger) :
    ExitResult × Ledger :=
  let d : Nat := (now - t.time_in + 59) / 60
  let ch : ℚ := round2 (max MIN_CHARGE ((d : ℚ) * RATE_PER_MINUTE))
  (ExitResult.exited d ch (slotNumOfSid st t.slot_id),
   ⟨freeSlotById st.slots t.slot_id, sealOpen now plate st.txns, st.next_txn_id⟩)

/-- `POST /api/exit` (slot.py `manual_exit`). -/
def manual_exit (plateRaw : String) (now : Nat) (st : Ledger) : ExitResult × Ledger :=
  let plate := pyNorm plateRaw
  if plate = "" then (ExitResult.badRequest, st)
  else
    match st.txns.find? (isOpenFor plate) with
    | none => (ExitResult.notFound, st)
    | some t => exit_vehicle_internal plate now t st

inductive PaymentResult
  | notFound
  | paid
deriving DecidableEq

/-- Mark the (unique, primary-key identified) transaction as paid. -/
def setPaidFirst : List Txn → Nat → List Txn
  | [], _ => []
  | t :: rest, i =>
      if t.id = i then { t with payment_status := PayStatus.paid } :: rest
      else t :: setPaidFirst rest i

/-- `POST /api/payment/process/<txn_id>` (slot.py `process_payment`):
`Transaction.query.get` then unconditionally `payment_status = 'paid'`. -/
def process_payment (st : Ledger) (txn_id : Nat) : PaymentResult × Ledger :=
  match st.txns.find? (fun t => decide (t.id = txn_id)) with
  | none => (PaymentResult.notFound, st)
  | some _ => (PaymentResult.paid, { st with txns := setPaidFirst st.txns txn_id })

/-- app.py `vehicle_entry` (`/api/entry` of the alternative server): same
entry protocol but the free slot is taken from
`Slot.query.filter_by(status='free').order_by(Slot.number).first()`,
and the link is assigned after `flush()`. -/
def vehicle_entry (plateRaw : String) (now : Nat) (st : Ledger) : EntryResult × Ledger :=
  let plate := pyNorm plateRaw
  if plate = "" then (EntryResult.badRequest, st)
  else if (st.txns.find? (isOpenFor plate)).isSome then (EntryResult.alreadyInside, st)
  else
    match (st.slots.filter (fun s => decide (s.status = SlotStatus.free))).foldl
        (fun acc s =>
          match acc with
          | none => some s
          | some b => if s.number < b.number then some s else acc) none with
    | none => (EntryResult.noSlots, st)
    | some s =>
        let tid := st.next_txn_id
        let txn : Txn :=
          { id := tid, plate := plate, slot_id := some s.id, time_in := now
            time_out := none, duration_minutes := none, charge := none
            payment_status := PayStatus.pending }
        let slots :=
          st.slots.map (fun u =>
            if u.id = s.id then
              { u with status := SlotStatus.occupied, current_txn_id := some tid }
            else u)
        (EntryResult.entered s.id s.number tid, ⟨slots, st.txns ++ [txn], tid + 1⟩)

/-! ## Operation sequences over the ledger (slot.py server) -/

inductive LOp
  | detect (plate : String) (now : Nat)
  | mEntry (plate : String) (now : Nat)
  | mExit (plate : String) (now : Nat)

def ledgerStep (st : Ledger) : LOp → Ledger
  | LOp.detect p now => (detect_plate p now st).2
  | LOp.mEntry p now => (manual_entry p now st).2
  | LOp.mExit p now => (manual_exit p now st).2

/-- Ledger states reachable from an initialized database: a pool of slots
and no transactions, evolved by any sequence of detect / manual entry /
manual exit calls. -/
inductive Reachable : Ledger → Prop
  | init (slots : List ParkSlot) (n : Nat) : Reachable ⟨slots, [], n⟩
  | step (st : Ledger) (op : LOp) : Reachable st → Reachable (ledgerStep st op)

/-! ## OCR plate validation (anpr_yolo_easyocr.py `correct_ocr_text`) -/

/-- The cleaning pipeline of `correct_ocr_text`:
`re.sub(r'\s+', '', raw.upper())`, then `replace('|','I')`,
`replace('l','I')` (a no-op after upper-casing), then
`re.sub(r'[^A-Z0-9]', '', text)`. -/
def cleanPlate (raw : String) : List Char :=
  let t1 := ((raw.toList.map Char.toUpper).filter (fun c => !pySpace c))
  let t2 := t1.map (fun c => if c = '|' then 'I' else c)
  let t3 := t2.map (fun c => if c = 'l' then 'I' else c)
  t3.filter (fun c => c.isUpper || c.isDigit)

/-- The strict positional checks of `correct_ocr_text`: positions 0-1
letters, 2-3 alphanumeric, 4-5 letters, 6-9 digits — and exactly 10
characters. -/
def plateGrammarOk : List Char → Bool
  | [c0, c1, c2, c3, c4, c5, c6, c7, c8, c9] =>
      (c0.isAlpha && c1.isAlpha) && (c2.isAlphanum && c3.isAlphanum) &&
      (c4.isAlpha && c5.isAlpha) &&
      (c6.isDigit && c7.isDigit && c8.isDigit && c9.isDigit)
  | _ => false

/-- `correct_ocr_text(raw_text)`: `None` for falsy input, clean, require
length exactly 10, then the positional checks; on success return the
cleaned text itself (no character is ever converted between classes). -/
def correct_ocr_text (raw : String) : Option String :=
  if raw = "" then none
  else
    let text := cleanPlate raw
    if text.length ≠ 10 then none
    else if plateGrammarOk text then some (String.mk text) else none

/-! ## Frame aggregation (anpr_yolo_easyocr.py `FrameAggregator`) -/

structure FrameAggregator where
  window_size : Nat
  threshold : Nat
  detection_history : List (Option String × ℚ)
  last_confirmed : Option String
deriving DecidableEq

def mkAggregator (window_size threshold : Nat) : FrameAggregator :=
  ⟨window_size, threshold, [], none⟩

/-- `add_detection`: append `(plate, confidence)` (or `(None, 0.0)`), then
`pop(0)` once if the window overflowed. -/
def add_detection (st : FrameAggregator) (plate : Option String) (confidence : ℚ) :
    FrameAggregator :=
  let entry : Option String × ℚ :=
    match plate with
    | none => (none, 0)
    | some p => (some p, confidence)
  let h := st.detection_history ++ [entry]
  { st with detection_history := if st.window_size < h.length then h.drop 1 else h }

/-- Feed a sequence of observations (test harness shorthand: repeated
`add_detection`). -/
def addSeq (st : FrameAggregator) (obs : List (Option String × ℚ)) : FrameAggregator :=
  obs.foldl (fun s pc => add_detection s pc.1 pc.2) st

/-- `[(p, c) for p, c in self.detection_history if p is not None]`. -/
def validDetections (st : FrameAggregator) : List (String × ℚ) :=
  st.detection_history.filterMap (fun pc => pc.1.map (fun p => (p, pc.2)))

def validPlates (st : FrameAggregator) : List String :=
  (validDetections st).map Prod.fst

/-- The confidences supporting a given plate within the window. -/
def supportConfs (st : FrameAggregator) (p : String) : List ℚ :=
  ((validDetections st).filter (fun pc => pc.1 == p)).map Prod.snd

/-- `get_consensus`: `Counter(plates).most_common(1)[0]` is the plate with
the maximal count whose first occurrence is earliest (`Counter` preserves
first-insertion order and `most_common` sorts stably by count), i.e. the
first list element whose count is maximal; below the vote threshold the
result is `(None, 0.0)`, otherwise the plate together with the mean
confidence (`np.mean`) of its supporting entries. -/
def get_consensus (st : FrameAggregator) : Option String × ℚ :=
  if st.detection_history.isEmpty then (none, 0)
  else if (validDetections st).isEmpty then (none, 0)
  else
    match (validPlates st).find? (fun p =>
        (validPlates st).all (fun q =>
          decide ((validPlates st).count q ≤ (validPlates st).count p))) with
    | none => (none, 0)
    | some most_common_plate =>
        if (validPlates st).count most_common_plate < st.threshold then (none, 0)
        else
          (some most_common_plate,
           (supportConfs st most_common_plate).sum
             / ((supportConfs st most_common_plate).length : ℚ))

def consensusPlate (st : FrameAggregator) : Option String :=
  (get_consensus st).1

/-- `is_new_plate`: `False` when there is no consensus; otherwise `True`
exactly when the consensus differs from `self.last_confirmed`, which is
then overwritten.  (The wall-clock bookkeeping `confirmed_time` plays no
role in any decision and is not modelled.) -/
def is_new_plate (st : FrameAggregator) : Bool × FrameAggregator :=
  match (get_consensus st).1 with
  | none => (false, st)
  | some c =>
      if st.last_confirmed = some c then (false, st)
      else (true, { st with last_confirmed := some c })

/-! ## String similarity (difflib.SequenceMatcher, no junk for short strings) -/

/-- Length of the common run of equal characters at the heads. -/
def runLen : List Char → List Char → Nat
  | a :: as, b :: bs => if a = b then runLen as bs + 1 else 0
  | _, _ => 0

/-- `SequenceMatcher.find_longest_match` on the windows `a[alo:ahi]`,
`b[blo:bhi]` (junk sets empty): the maximal-length common run clipped to
the windows, ties resolved towards the smallest start in `a`, then the
smallest start in `b` — the fold keeps the first maximum in that order. -/
def bestMatch (a b : List Char) (alo ahi blo bhi : Nat) : Nat × Nat × Nat :=
  (List.range' alo (ahi - alo)).foldl (fun best i =>
    (List.range' blo (bhi - blo)).foldl (fun best j =>
      let k := min (runLen (a.drop i) (b.drop j)) (min (ahi - i) (bhi - j))
      if best.2.2 < k then (i, j, k) else best) best) (alo, blo, 0)

/-- Total size of `SequenceMatcher.get_matching_blocks`: recursively split
around the longest match.  The fuel bounds the recursion depth; any value
above `len a + len b` is sufficient because each sub-window is strictly
smaller. -/
def matchTotal : Nat → List Char → List Char → Nat → Nat → Nat → Nat → Nat
  | 0, _, _, _, _, _, _ => 0
  | fuel + 1, a, b, alo, ahi, blo, bhi =>
      match bestMatch a b alo ahi blo bhi with
      | (i, j, k) =>
          if k = 0 then 0
          else k + matchTotal fuel a b alo i blo j + matchTotal fuel a b (i + k) ahi (j + k) bhi

/-- camera_capture.py `string_similarity(a, b)` =
`SequenceMatcher(None, a, b).ratio()` = `2 * M / (len(a) + len(b))`
(`1.0` when both strings are empty). -/
def string_similarity (a b : String) : ℚ :=
  let la := a.toList
  let lb := b.toList
  let total := la.length + lb.length
  if total = 0 then 1
  else (2 * (matchTotal (total + 1) la lb 0 la.length 0 lb.length) : ℚ) / (total : ℚ)

/-! ## Deduplication gate (camera_capture.py) -/

def REQUIRED_DETECTIONS : Nat := 1
def DETECTION_TIME_WINDOW : ℚ := 10
def SIMILARITY_THRESHOLD : ℚ := 17 / 20
def DUPLICATE_IGNORE_SECONDS : ℚ := 20
def GLOBAL_DETECTION_COOLDOWN : ℚ := 3

/-- The module-level mutable state of camera_capture.py:
`plate_detections` (plate → recent detection timestamps),
`processed_plates` (plate → last accepted API call time) and
`last_global_detection_time`, all in Python-dict insertion order. -/
structure DedupState where
  plate_detections : List (String × List ℚ)
  processed_plates : List (String × ℚ)
  last_global_detection_time : ℚ
deriving DecidableEq

def dedupInit : DedupState := ⟨[], [], 0⟩

/-- Python-dict lookup `d.get(k)` over the insertion-ordered pair list. -/
def alGet (l : List (String × β)) (k : String) : Option β :=
  match l with
  | [] => none
  | kv :: rest => if kv.1 = k then some kv.2 else alGet rest k

/-- Python-dict assignment `d[k] = v`: overwrite in place when the key
exists, otherwise append (insertion order preserved). -/
def alSet (l : List (String × β)) (k : String) (v : β) : List (String × β) :=
  if (alGet l k).isSome then
    l.map (fun kv => if kv.1 = k then (k, v) else kv)
  else l ++ [(k, v)]

/-- camera_capture.py `should_process_plate(plate)` at time `now`:
resolve the most similar stored plate above the threshold as the target,
record and prune the target's detections, then the three gates
(required count, per-plate duplicate-ignore interval, global cooldown);
on acceptance stamp the target and the global timestamp and reset the
target's detection list. -/
def should_process_plate (st : DedupState) (plate : String) (now : ℚ) :
    (Bool × String) × DedupState :=
  let pick :=
    (st.plate_detections.map Prod.fst).foldl (fun (acc : Option String × ℚ) k =>
      let s := string_similarity plate k
      if SIMILARITY_THRESHOLD < s ∧ acc.2 < s then (some k, s) else acc) (none, 0)
  let target_plate := pick.1.getD plate
  let dets0 :=
    if (alGet st.plate_detections target_plate).isSome then st.plate_detections
    else st.plate_detections ++ [(target_plate, [])]
  let recent :=
    (((alGet dets0 target_plate).getD []) ++ [now]).filter
      (fun ts => decide (now - ts ≤ DETECTION_TIME_WINDOW))
  let dets1 := alSet dets0 target_plate recent
  let stMid : DedupState := { st with plate_detections := dets1 }
  if recent.length < REQUIRED_DETECTIONS then ((false, target_plate), stMid)
  else if (match alGet st.processed_plates target_plate with
           | some tlast => decide (now - tlast < DUPLICATE_IGNORE_SECONDS)
           | none => false) then ((false, target_plate), stMid)
  else if now - st.last_global_detection_time < GLOBAL_DETECTION_COOLDOWN then
    ((false, target_plate), stMid)
  else
    ((true, target_plate),
     { plate_detections := alSet dets1 target_plate []
       processed_plates := alSet st.processed_plates target_plate now
       last_global_detection_time := now })

/-! ## Concrete states used by the individual claims -/

/-- A freshly initialized one-slot pool (claim C1 witness). -/
def stInitC1 : Ledger := ⟨[⟨1, 1, SlotStatus.free, none⟩], [], 1⟩

/-- One plate parked in slot 1 since second 0 (claim C2). -/
def stParkedC2 : Ledger :=
  ⟨[⟨1, 1, SlotStatus.occupied, some 1⟩],
   [⟨1, ("KA01AB1234"), some 1, 0, none, none, none, PayStatus.pending⟩], 2⟩

/-- The transaction open in `stParkedC2`. -/
def txnC2 : Txn := ⟨1, ("KA01AB1234"), some 1, 0, none, none, none, PayStatus.pending⟩

/-- A fresh one-slot pool (claim C3). -/
def stFreshC3 : Ledger := ⟨[⟨1, 1, SlotStatus.free, none⟩], [], 1⟩

/-- A pool with no free slot (claim C3). -/
def stFullC3 : Ledger := ⟨[⟨1, 1, SlotStatus.occupied, none⟩], [], 1⟩

/-- The spec scenario window `[A, A, B, A, null]` with capacity 5 and
quorum 3, with symbolic confidences for the three `A` entries (claim C5). -/
def aggScenarioC5 (ca1 ca2 cb ca3 : ℚ) : FrameAggregator :=
  addSeq (mkAggregator 5 3)
    [(some ("KA01AB1234"), ca1), (some ("KA01AB1234"), ca2),
     (some ("MH12CD5678"), cb), (some ("KA01AB1234"), ca3), (none, 0)]

/-- A window in which plate A has only one vote (claim C5 witness). -/
def aggOneVoteC5 : FrameAggregator :=
  addSeq (mkAggregator 5 3) [(some ("KA01AB1234"), 1), (some ("MH12CD5678"), 1)]

/-- A window with two plates tied at two votes each, the later-appearing
plate having the far higher confidences (claim C6). -/
def aggTieC6 : FrameAggregator :=
  addSeq (mkAggregator 5 2)
    [(some ("KA01AB1234"), 1/10), (some ("MH12CD5678"), 9/10),
     (some ("MH12CD5678"), 9/10), (some ("KA01AB1234"), 1/10)]

/-- Claim C7 run, stage 1: three frames of plate A (window 5, quorum 3). -/
def aggC7s1 : FrameAggregator :=
  addSeq (mkAggregator 5 3)
    [(some ("KA01AB1234"), 1), (some ("KA01AB1234"), 1), (some ("KA01AB1234"), 1)]

/-- Claim C7 run: first `is_new_plate` call (confirms A). -/
def aggC7c1 : Bool × FrameAggregator := is_new_plate aggC7s1

/-- Claim C7 run, stage 2: three empty frames — consensus lapses to null. -/
def aggC7s2 : FrameAggregator := addSeq aggC7c1.2 [(none, 0), (none, 0), (none, 0)]

/-- Claim C7 run: second `is_new_plate` call (no consensus). -/
def aggC7c2 : Bool × FrameAggregator := is_new_plate aggC7s2

/-- Claim C7 run, stage 3: plate A regains quorum. -/
def aggC7s3 : FrameAggregator :=
  addSeq aggC7c2.2
    [(some ("KA01AB1234"), 1), (some ("KA01AB1234"), 1), (some ("KA01AB1234"), 1)]

/-- Claim C9: accept plate A at t = 5 s. -/
def st9a : DedupState := (should_process_plate dedupInit ("KA01AB1234") 5).2

/-- Claim C9: a later, dissimilar detection at t = 1000 s. -/
def st9b : DedupState := (should_process_plate st9a ("QQQQQQQQQQ") 1000).2

/-- Claim C9 witness: a memory holding one processed plate. -/
def stMemC9 : DedupState := ⟨[], [(("KA01AB1234"), 5)], 0⟩

/-- Claim C10 witness: a ledger with one exited and one open transaction. -/
def stPayC10 : Ledger :=
  ⟨[⟨1, 1, SlotStatus.occupied, some 2⟩],
   [⟨1, ("KA01AB1234"), some 1, 0, some 60, some 1, some 10, PayStatus.pending⟩,
    ⟨2, ("MH12CD5678"), some 1, 100, none, none, none, PayStatus.pending⟩], 3⟩

/-! ## General list lemmas -/

theorem find?_decomp {α : Type} (pred : α → Bool) (l : List α) (a : α)
    (h : l.find? pred = some a) :
    ∃ l₁ l₂, l = l₁ ++ a :: l₂ ∧ ∀ x ∈ l₁, pred x = false := by
  induction l with
  | nil => simp [List.find?] at h
  | cons x xs ih =>
    by_cases hx : pred x
    · rw [List.find?_cons_of_pos _ hx] at h
      obtain rfl : x = a := by injection h
      exact ⟨[], xs, rfl, by simp⟩
    · rw [List.find?_cons_of_neg _ hx] at h
      obtain ⟨l₁, l₂, hdec, hl⟩ := ih h
      refine ⟨x :: l₁, l₂, by rw [hdec, List.cons_append], ?_⟩
      intro y hy
      rcases List.mem_cons.mp hy with rfl | hy
      · simpa using hx
      · exact hl y hy

theorem find?_of_decomp {α : Type} (pred : α → Bool) (l₁ l₂ : List α) (a : α)
    (h₁ : ∀ x ∈ l₁, pred x = false) (ha : pred a = true) :
    (l₁ ++ a :: l₂).find? pred = some a := by
  induction l₁ with
  | nil => simp [List.find?_cons_of_pos _ ha]
  | cons x xs ih =>
    have hx : pred x = false := h₁ x (by simp)
    rw [List.cons_append, List.find?_cons_of_neg _ (by simp [hx])]
    exact ih (fun y hy => h₁ y (by simp [hy]))

/-! ## Ledger lemmas (claim C1 and friends) -/

theorem isOpenFor_sealTxn (p : String) (t : Txn) (now : Nat) :
    isOpenFor p (sealTxn t now) = false := by
  simp [isOpenFor, sealTxn]

theorem sealOpen_of_decomp (now : Nat) (p : String) (l₁ l₂ : List Txn) (t : Txn)
    (h₁ : ∀ x ∈ l₁, isOpenFor p x = false) (ht : isOpenFor p t = true) :
    sealOpen now p (l₁ ++ t :: l₂) = l₁ ++ sealTxn t now :: l₂ := by
  induction l₁ with
  | nil => simp [sealOpen, ht]
  | cons x xs ih =>
    have hx : isOpenFor p x = false := h₁ x (by simp)
    simp only [List.cons_append, sealOpen, hx, Bool.false_eq_true, if_false]
    exact congrArg (x :: ·) (ih (fun y hy => h₁ y (by simp [hy])))

theorem countOpen_append (l : List Txn) (t : Txn) (p : String) :
    ((l ++ [t]).filter (isOpenFor p)).length
      = (l.filter (isOpenFor p)).length + (if isOpenFor p t then 1 else 0) := by
  rw [List.filter_append]
  cases h : isOpenFor p t <;> simp [List.filter, h]

theorem count_zero_of_find?_none (p : String) (l : List Txn)
    (h : l.find? (isOpenFor p) = none) :
    (l.filter (isOpenFor p)).length = 0 := by
  have hall := List.find?_eq_none.mp h
  simp [List.filter_eq_nil_iff.mpr hall]

theorem sealOpen_count_le (now : Nat) (q p : String) (l : List Txn) :
    ((sealOpen now q l).filter (isOpenFor p)).length
      ≤ (l.filter (isOpenFor p)).length := by
  induction l with
  | nil => simp [sealOpen]
  | cons t rest ih =>
    by_cases hqt : isOpenFor q t
    · simp only [sealOpen, hqt, if_true, List.filter_cons, isOpenFor_sealTxn,
        Bool.false_eq_true, if_false]
      split <;> simp [Nat.le_succ]
    · simp only [sealOpen, hqt, Bool.false_eq_true, if_false, List.filter_cons]
      split
      · simpa using ih
      · exact ih

theorem openCount_entry_internal (st : Ledger) (p plate : String) (now : Nat)
    (hopen : st.txns.find? (isOpenFor plate) = none)
    (h : ∀ q, openCount st q ≤ 1) :
    openCount (entry_vehicle_internal plate now st).2 p ≤ 1 := by
  unfold entry_vehicle_internal
  cases hslot : st.slots.find? (fun s => decide (s.status = SlotStatus.free)) with
  | none => simpa using h p
  | some s =>
    simp only [openCount, countOpen_append]
    by_cases hpp : plate = p
    · subst hpp
      have h0 := count_zero_of_find?_none plate st.txns hopen
      simp only [openCount] at h0
      simp [isOpenFor, h0]
    · have : isOpenFor p
          { id := st.next_txn_id, plate := plate, slot_id := some s.id, time_in := now
            time_out := none, duration_minutes := none, charge := none
            payment_status := PayStatus.pending } = false := by
        simp [isOpenFor, hpp]
      simpa [this] using h p

theorem openCount_step (st : Ledger) (op : LOp) (h : ∀ q, openCount st q ≤ 1)
    (p : String) : openCount (ledgerStep st op) p ≤ 1 := by
  cases op with
  | detect plate now =>
    show openCount (detect_plate plate now st).2 p ≤ 1
    unfold detect_plate
    by_cases hpl : plate = ""
    · simpa [hpl] using h p
    · simp only [hpl, if_false]
      cases hfind : st.txns.find? (isOpenFor plate) with
      | some t => simpa using h p
      | none =>
        cases hslot : st.slots.find? (fun s => decide (s.status = SlotStatus.free)) with
        | none => simpa using h p
        | some s =>
          simp only [openCount, countOpen_append]
          by_cases hpp : plate = p
          · subst hpp
            have h0 := count_zero_of_find?_none plate st.txns hfind
            simp only [openCount] at h0
            simp [isOpenFor, h0]
          · have hnew : isOpenFor p
                { id := st.next_txn_id, plate := plate, slot_id := some s.id, time_in := now
                  time_out := none, duration_minutes := none, charge := none
                  payment_status := PayStatus.pending } = false := by
              simp [isOpenFor, hpp]
            simpa [hnew] using h p
  | mEntry plate now =>
    show openCount (manual_entry plate now st).2 p ≤ 1
    unfold manual_entry
    by_cases hpl : pyNorm plate = ""
    · simpa [hpl] using h p
    · simp only [hpl, if_false]
      cases hfind : st.txns.find? (isOpenFor (pyNorm plate)) with
      | some t => simpa [hfind] using h p
      | none =>
        simpa [hfind] using openCount_entry_internal st p (pyNorm plate) now hfind h
  | mExit plate now =>
    show openCount (manual_exit plate now st).2 p ≤ 1
    unfold manual_exit
    by_cases hpl : pyNorm plate = ""
    · simpa [hpl] using h p
    · simp only [hpl, if_false]
      cases hfind : st.txns.find? (isOpenFor (pyNorm plate)) with
      | some t =>
        simp only [exit_vehicle_internal, openCount]
        exact le_trans (sealOpen_count_le now (pyNorm plate) p st.txns) (h p)
      | none => simpa using h p

theorem openCount_reachable (st : Ledger) (h : Reachable st) : ∀ p, openCount st p ≤ 1 := by
  induction h with
  | init slots n => intro p; simp [openCount]
  | step st' op _ ih => intro p; exact openCount_step st' op ih p

/-! ## Claim C1 -/

/-- Claim C1: on every reachable ledger state each plate has at most one
open transaction; an automatic detection or a manual entry for a plate
that already has an open transaction is refused without any mutation; and
a manual exit seals exactly that open transaction (all other rows are
untouched and the plate ends with no open transaction). -/
theorem ledger_single_open_txn (st : Ledger) (hst : Reachable st) (p : String) :
    openCount st p ≤ 1
    ∧ (∀ now, hasOpen st p = true →
        (detect_plate p now st).2 = st
        ∧ ∀ sn tid, (detect_plate p now st).1 ≠ DetectResult.entry sn tid)
    ∧ (∀ now, hasOpen st (pyNorm p) = true →
        (manual_entry p now st).2 = st
        ∧ ∀ a b c, (manual_entry p now st).1 ≠ EntryResult.entered a b c)
    ∧ (∀ now, hasOpen st (pyNorm p) = true → pyNorm p ≠ "" →
        openCount (manual_exit p now st).2 (pyNorm p) = 0
        ∧ ∃ t l₁ l₂, st.txns = l₁ ++ t :: l₂
            ∧ isOpenFor (pyNorm p) t = true
            ∧ (∀ u ∈ l₁, isOpenFor (pyNorm p) u = false)
            ∧ (manual_exit p now st).2.txns = l₁ ++ sealTxn t now :: l₂) := by
  refine ⟨openCount_reachable st hst p, ?_, ?_, ?_⟩
  · intro now hopen
    unfold detect_plate
    by_cases hpl : p = ""
    · simp [hpl]
    · obtain ⟨t, hfind⟩ := Option.isSome_iff_exists.mp hopen
      simp [hpl, hfind]
  · intro now hopen
    unfold manual_entry
    by_cases hpl : pyNorm p = ""
    · simp [hpl]
    · unfold hasOpen at hopen
      rw [if_neg hpl, if_pos hopen]
      simp
  · intro now hopen hpl
    obtain ⟨t, hfind⟩ := Option.isSome_iff_exists.mp hopen
    obtain ⟨l₁, l₂, hdec, hl₁⟩ := find?_decomp _ _ _ hfind
    have ht : isOpenFor (pyNorm p) t = true := List.find?_some hfind
    have hseal : sealOpen now (pyNorm p) st.txns = l₁ ++ sealTxn t now :: l₂ := by
      rw [hdec]; exact sealOpen_of_decomp now (pyNorm p) l₁ l₂ t hl₁ ht
    have hres : (manual_exit p now st).2.txns = l₁ ++ sealTxn t now :: l₂ := by
      unfold manual_exit
      simp [hpl, hfind, exit_vehicle_internal, hseal]
    refine ⟨?_, t, l₁, l₂, hdec, ht, hl₁, hres⟩
    have hinv := openCount_reachable st hst (pyNorm p)
    have hl₁nil : l₁.filter (isOpenFor (pyNorm p)) = [] :=
      List.filter_eq_nil_iff.mpr (fun x hx => by simp [hl₁ x hx])
    have hle : (l₂.filter (isOpenFor (pyNorm p))).length + 1 ≤ 1 := by
      simp only [openCount, hdec, List.filter_append, List.filter_cons, ht, if_true,
        hl₁nil, List.nil_append, List.length_cons] at hinv
      omega
    have hl₂nil : l₂.filter (isOpenFor (pyNorm p)) = [] :=
      List.length_eq_zero.mp (by omega)
    simp [openCount, hres, List.filter_append, List.filter_cons, isOpenFor_sealTxn,
      hl₁nil, hl₂nil]

/-- Witness for claim C1: the single-open-transaction bound instantiated on
a freshly initialized pool. -/
theorem ledger_single_open_txn_witness :
    openCount stInitC1 ("KA01AB1234") ≤ 1 :=
  (ledger_single_open_txn stInitC1
    (Reachable.init [⟨1, 1, SlotStatus.free, none⟩] 1) ("KA01AB1234")).1

/-! ## Rounding lemmas -/

theorem round2_natCast (n : ℕ) : round2 ((n : ℚ)) = (n : ℚ) := by
  unfold round2
  rw [show ((n : ℚ) * 100) = (((n * 100 : ℕ) : ℤ) : ℚ) by push_cast; ring, round_intCast]
  push_cast
  field_simp

theorem round2_charge (d : ℕ) :
    round2 (max MIN_CHARGE ((d : ℚ) * RATE_PER_MINUTE))
      = max MIN_CHARGE ((d : ℚ) * RATE_PER_MINUTE) := by
  unfold MIN_CHARGE RATE_PER_MINUTE
  rcases max_cases (10 : ℚ) ((d : ℚ) * 5) with ⟨h1, _⟩ | ⟨h1, _⟩ <;> rw [h1]
  · rw [show (10 : ℚ) = ((10 : ℕ) : ℚ) by norm_num]
    exact round2_natCast 10
  · rw [show ((d : ℚ) * 5) = ((d * 5 : ℕ) : ℚ) by push_cast; ring]
    exact round2_natCast (d * 5)

/-! ## Claim C2 -/

/-- Claim C2 counterexample: with plate KA01AB1234 parked since second 0,
`/api/detect` at second 120 does NOT perform an exit — it answers
ALREADY_PARKED, leaves the ledger untouched and the transaction open. -/
theorem detect_does_not_exit_cex :
    detect_plate ("KA01AB1234") 120 stParkedC2
      = (DetectResult.alreadyParked (some 1), stParkedC2)
    ∧ hasOpen (detect_plate ("KA01AB1234") 120 stParkedC2).2 ("KA01AB1234") = true := by
  decide

/-- Claim C2 (amended): when an open transaction exists for the plate,
`/api/detect` refuses with ALREADY_PARKED and mutates nothing; the EXIT
semantics the claim describes — `timeOut = now`,
`durationMinutes = ceil(elapsed/60)`, `charge = max(10, duration*5)`,
`paymentStatus = pending`, slot freed and unlinked, duration/charge/slot
number returned — is performed by the manual exit endpoint `/api/exit`. -/
theorem detect_refusal_and_manual_exit :
    (∀ (st : Ledger) (p : String) (now : Nat), p ≠ "" → hasOpen st p = true →
        (detect_plate p now st).2 = st
        ∧ ∃ sn, (detect_plate p now st).1 = DetectResult.alreadyParked sn)
    ∧ (∀ (st : Ledger) (p : String) (now : Nat) (t : Txn),
        st.txns.find? (isOpenFor (pyNorm p)) = some t → pyNorm p ≠ "" →
        t.time_in ≤ now →
        (manual_exit p now st).1
          = ExitResult.exited ((now - t.time_in + 59) / 60)
              (max MIN_CHARGE ((((now - t.time_in + 59) / 60 : Nat) : ℚ) * RATE_PER_MINUTE))
              (slotNumOfSid st t.slot_id)
        ∧ (∃ l₁ l₂, st.txns = l₁ ++ t :: l₂
            ∧ (manual_exit p now st).2.txns
                = l₁ ++ { t with
                    time_out := some now
                    duration_minutes := some ((now - t.time_in + 59) / 60)
                    charge := some (max MIN_CHARGE
                      ((((now - t.time_in + 59) / 60 : Nat) : ℚ) * RATE_PER_MINUTE))
                    payment_status := PayStatus.pending } :: l₂)
        ∧ (manual_exit p now st).2.slots = freeSlotById st.slots t.slot_id
        ∧ ∀ s ∈ (manual_exit p now st).2.slots,
            t.slot_id = some s.id → s.status = SlotStatus.free ∧ s.current_txn_id = none) := by
  constructor
  · intro st p now hpl hopen
    unfold detect_plate
    obtain ⟨t, hfind⟩ := Option.isSome_iff_exists.mp hopen
    simp [hpl, hfind]
  · intro st p now t hfind hpl htime
    have hexit : manual_exit p now st = exit_vehicle_internal (pyNorm p) now t st := by
      unfold manual_exit
      rw [if_neg hpl, hfind]
    obtain ⟨l₁, l₂, hdec, hl₁⟩ := find?_decomp _ _ _ hfind
    have ht : isOpenFor (pyNorm p) t = true := List.find?_some hfind
    have hseal : sealOpen now (pyNorm p) st.txns = l₁ ++ sealTxn t now :: l₂ := by
      rw [hdec]; exact sealOpen_of_decomp now (pyNorm p) l₁ l₂ t hl₁ ht
    have hslots : (manual_exit p now st).2.slots = freeSlotById st.slots t.slot_id := by
      rw [hexit]; rfl
    refine ⟨?_, ⟨l₁, l₂, hdec, ?_⟩, hslots, ?_⟩
    · rw [hexit]
      show ExitResult.exited _ (round2 _) _ = _
      rw [round2_charge]
    · rw [hexit]
      show sealOpen now (pyNorm p) st.txns = _
      rw [hseal]
      have : sealTxn t now = { t with
          time_out := some now
          duration_minutes := some ((now - t.time_in + 59) / 60)
          charge := some (max MIN_CHARGE
            ((((now - t.time_in + 59) / 60 : Nat) : ℚ) * RATE_PER_MINUTE))
          payment_status := PayStatus.pending } := by
        simp only [sealTxn]
        rw [round2_charge]
      rw [this]
    · intro s hs hsid
      rw [hslots, hsid] at hs
      unfold freeSlotById at hs
      obtain ⟨s₀, _, heq⟩ := List.mem_map.mp hs
      by_cases h0 : s₀.id = s.id
      · rw [if_pos h0] at heq
        rw [← heq]
        exact ⟨rfl, rfl⟩
      · rw [if_neg h0] at heq
        rw [← heq] at h0
        exact absurd rfl h0

/-- Witness for claim C2: on the concrete parked state, detect leaves the
ledger unchanged and the manual exit returns duration 2 minutes, charge 10
and slot 1. -/
theorem detect_refusal_and_manual_exit_witness :
    (detect_plate ("KA01AB1234") 120 stParkedC2).2 = stParkedC2
    ∧ (manual_exit ("KA01AB1234") 120 stParkedC2).1
        = ExitResult.exited 2 10 (some 1) := by
  refine ⟨(detect_refusal_and_manual_exit.1 stParkedC2 ("KA01AB1234") 120 (by decide)
    (by decide)).1, ?_⟩
  have h := (detect_refusal_and_manual_exit.2 stParkedC2 ("KA01AB1234") 120 txnC2
    (by decide) (by decide) (by decide)).1
  rw [h]
  norm_num [txnC2, stParkedC2, MIN_CHARGE, RATE_PER_MINUTE, slotNumOfSid, List.find?]

/-! ## Claim C3 -/

/-- Claim C3 (code bug): on a fresh pool `/api/detect` allocates the slot
and creates the transaction, but stores `None` in the slot's
`current_txn_id` because `txn.id` is read before the transaction is
flushed; the manual-entry path on the same state flushes first and links
the slot to transaction 1.  A full lot is refused without mutation. -/
theorem detect_link_bug_eval :
    detect_plate ("KA01AB1234") 0 stFreshC3
      = (DetectResult.entry 1 1,
         ⟨[⟨1, 1, SlotStatus.occupied, none⟩],
          [⟨1, ("KA01AB1234"), some 1, 0, none, none, none, PayStatus.pending⟩], 2⟩)
    ∧ manual_entry ("KA01AB1234") 0 stFreshC3
      = (EntryResult.entered 1 1 1,
         ⟨[⟨1, 1, SlotStatus.occupied, some 1⟩],
          [⟨1, ("KA01AB1234"), some 1, 0, none, none, none, PayStatus.pending⟩], 2⟩)
    ∧ detect_plate ("KA01AB1234") 0 stFullC3 = (DetectResult.lotFull, stFullC3) := by
  decide

/-! ## Claim C4 -/

/-- Claim C4 counterexample: the cleaned text KA01AB123O has length 10 and
its only error is the confusable O (for 0) in digit position 9, where the
spec's confusion map would repair it — yet `correct_ocr_text` returns
null instead of a repaired plate. -/
theorem no_confusable_repair_cex : correct_ocr_text ("KA01AB123O") = none := by
  decide

/-- Claim C4 (amended): `correct_ocr_text` performs no confusable-character
repair.  It returns a plate exactly when the cleaned text (upper-cased,
whitespace removed, `|`/`l` mapped to `I`, non-alphanumerics stripped) has
length exactly 10 and already satisfies the positional grammar, and the
returned plate is that cleaned text itself; whenever the cleaned length
differs from 10 it returns null. -/
theorem correct_ocr_text_spec :
    (∀ (raw r : String), correct_ocr_text raw = some r ↔
        (r = String.mk (cleanPlate raw) ∧ (cleanPlate raw).length = 10
          ∧ plateGrammarOk (cleanPlate raw) = true))
    ∧ (∀ raw : String, (cleanPlate raw).length ≠ 10 → correct_ocr_text raw = none) := by
  constructor
  · intro raw r
    unfold correct_ocr_text
    by_cases h0 : raw = ""
    · subst h0
      simp [cleanPlate]
    · rw [if_neg h0]
      by_cases hlen : (cleanPlate raw).length ≠ 10
      · simp [hlen]
      · rw [if_neg (by simpa using hlen)]
        push_neg at hlen
        by_cases hg : plateGrammarOk (cleanPlate raw)
        · simp [hg, hlen, eq_comm]
        · simp [hg]
  · intro raw hlen
    unfold correct_ocr_text
    by_cases h0 : raw = ""
    · simp [h0]
    · simp [h0, hlen]

/-- Witness for claim C4: an eight-character input is rejected. -/
theorem correct_ocr_text_spec_witness : correct_ocr_text ("KA01AB12") = none :=
  correct_ocr_text_spec.2 ("KA01AB12") (by decide)

/-! ## Consensus lemmas (claims C5, C6) -/

theorem firstMax_find (L l₁ l₂ : List String) (P Q : String)
    (hdec : L = l₁ ++ P :: l₂) (hPl₁ : P ∉ l₁) (hQl₁ : Q ∉ l₁)
    (hmax : ∀ R ∈ L, L.count R ≤ L.count P)
    (honly : ∀ R ∈ L, R ≠ P → R ≠ Q → L.count R < L.count P) :
    L.find? (fun p => L.all (fun q => decide (L.count q ≤ L.count p))) = some P := by
  subst hdec
  have hPmem : P ∈ l₁ ++ P :: l₂ := List.mem_append_right _ (List.mem_cons_self _ _)
  apply find?_of_decomp
  · intro x hx
    have hxL : x ∈ l₁ ++ P :: l₂ := List.mem_append_left _ hx
    have hxP : x ≠ P := fun h => hPl₁ (h ▸ hx)
    have hxQ : x ≠ Q := fun h => hQl₁ (h ▸ hx)
    have hlt := honly x hxL hxP hxQ
    have hnall : ¬((l₁ ++ P :: l₂).all
        (fun q => decide ((l₁ ++ P :: l₂).count q ≤ (l₁ ++ P :: l₂).count x)) = true) := by
      intro hall
      have := List.all_eq_true.mp hall P hPmem
      exact absurd (by simpa using this) (not_le.mpr hlt)
    simpa using hnall
  · exact List.all_eq_true.mpr (fun q hq => decide_eq_true (hmax q hq))

/-! ## Claim C5 -/

/-- Claim C5: (quorum) whenever fewer than `threshold` window entries carry
plate P, the consensus is never P; (scenario) for the window
`[A, A, B, A, null]` with capacity 5 and quorum 3 the consensus is A with
the mean of the three A confidences. -/
theorem consensus_quorum :
    (∀ (st : FrameAggregator) (P : String),
        (validPlates st).count P < st.threshold → (get_consensus st).1 ≠ some P)
    ∧ (∀ ca1 ca2 cb ca3 : ℚ,
        get_consensus (aggScenarioC5 ca1 ca2 cb ca3)
          = (some ("KA01AB1234"), (ca1 + ca2 + ca3) / 3)) := by
  constructor
  · intro st P hlt
    unfold get_consensus
    by_cases h1 : st.detection_history.isEmpty
    · simp [h1]
    · rw [if_neg h1]
      by_cases h2 : (validDetections st).isEmpty
      · simp [h2]
      · rw [if_neg h2]
        cases hfind : (validPlates st).find? (fun p =>
            (validPlates st).all (fun q =>
              decide ((validPlates st).count q ≤ (validPlates st).count p))) with
        | none => simp
        | some mc =>
          dsimp only
          by_cases hv : (validPlates st).count mc < st.threshold
          · simp [hv]
          · rw [if_neg hv]
            intro h
            obtain rfl : mc = P := Option.some.inj h
            exact hv hlt
  · intro ca1 ca2 cb ca3
    have hvalid : validDetections (aggScenarioC5 ca1 ca2 cb ca3)
        = [(("KA01AB1234"), ca1), (("KA01AB1234"), ca2),
           (("MH12CD5678"), cb), (("KA01AB1234"), ca3)] := rfl
    have hplates : validPlates (aggScenarioC5 ca1 ca2 cb ca3)
        = [("KA01AB1234"), ("KA01AB1234"), ("MH12CD5678"), ("KA01AB1234")] := by
      rw [validPlates, hvalid]; rfl
    have hfind : (validPlates (aggScenarioC5 ca1 ca2 cb ca3)).find? (fun p =>
        (validPlates (aggScenarioC5 ca1 ca2 cb ca3)).all (fun q =>
          decide ((validPlates (aggScenarioC5 ca1 ca2 cb ca3)).count q
            ≤ (validPlates (aggScenarioC5 ca1 ca2 cb ca3)).count p)))
        = some ("KA01AB1234") := by
      rw [hplates]; rfl
    have hsupp : supportConfs (aggScenarioC5 ca1 ca2 cb ca3) ("KA01AB1234")
        = [ca1, ca2, ca3] := by
      rw [supportConfs, hvalid]; rfl
    have hnq : ¬((validPlates (aggScenarioC5 ca1 ca2 cb ca3)).count ("KA01AB1234")
        < (aggScenarioC5 ca1 ca2 cb ca3).threshold) := by
      rw [hplates, show (aggScenarioC5 ca1 ca2 cb ca3).threshold = 3 from rfl]
      decide
    unfold get_consensus
    rw [if_neg (by simp [show (aggScenarioC5 ca1 ca2 cb ca3).detection_history.isEmpty = false
          from rfl]),
        if_neg (by simp [show (validDetections (aggScenarioC5 ca1 ca2 cb ca3)).isEmpty = false
          by rw [hvalid]; rfl])]
    simp only [hfind]
    rw [if_neg hnq, hsupp]
    refine Prod.ext rfl ?_
    show (ca1 + (ca2 + (ca3 + 0))) / ((3 : ℕ) : ℚ) = (ca1 + ca2 + ca3) / 3
    norm_num
    ring

/-- Witness for claim C5: in a window where A has a single vote and the
quorum is 3, the consensus is not A. -/
theorem consensus_quorum_witness :
    (get_consensus aggOneVoteC5).1 ≠ some ("KA01AB1234") :=
  consensus_quorum.1 aggOneVoteC5 ("KA01AB1234") (by decide)

/-! ## Claim C6 -/

/-- Claim C6 counterexample: plates A = KA01AB1234 and B = MH12CD5678 are
tied two votes each (quorum 2); B's supporting confidences average 9/10
against A's 1/10 and B's entries are more recent, yet the consensus is A
with confidence 1/10 — the tie is not resolved by confidence. -/
theorem tie_not_by_confidence_cex :
    (get_consensus aggTieC6).1 = some ("KA01AB1234")
    ∧ (get_consensus aggTieC6).1 ≠ some ("MH12CD5678")
    ∧ (get_consensus aggTieC6).2 = 1 / 10 := by
  have hvalid : validDetections aggTieC6
      = [(("KA01AB1234"), 1/10), (("MH12CD5678"), 9/10),
         (("MH12CD5678"), 9/10), (("KA01AB1234"), 1/10)] := rfl
  have hplates : validPlates aggTieC6
      = [("KA01AB1234"), ("MH12CD5678"), ("MH12CD5678"), ("KA01AB1234")] := by
    rw [validPlates, hvalid]; rfl
  have hfind : (validPlates aggTieC6).find? (fun p =>
      (validPlates aggTieC6).all (fun q =>
        decide ((validPlates aggTieC6).count q ≤ (validPlates aggTieC6).count p)))
      = some ("KA01AB1234") := by
    rw [hplates]; rfl
  have hnq : ¬((validPlates aggTieC6).count ("KA01AB1234") < aggTieC6.threshold) := by
    rw [hplates]; decide
  have hsupp : supportConfs aggTieC6 ("KA01AB1234") = [1/10, 1/10] := rfl
  have hfull : get_consensus aggTieC6 = (some ("KA01AB1234"), 1/10) := by
    unfold get_consensus
    rw [if_neg (by simp [show aggTieC6.detection_history.isEmpty = false from rfl]),
        if_neg (by simp [show (validDetections aggTieC6).isEmpty = false by rw [hvalid]; rfl])]
    simp only [hfind]
    rw [if_neg hnq, hsupp]
    refine Prod.ext rfl ?_
    show (1/10 + (1/10 + 0)) / ((2 : ℕ) : ℚ) = 1/10
    norm_num
  rw [hfull]
  refine ⟨rfl, by simp, rfl⟩

/-- Claim C6 (amended): when two distinct plates P and Q are tied for the
highest occurrence count (at or above quorum, every other plate strictly
below), `get_consensus` deterministically returns the tied plate whose
FIRST occurrence among the window's valid entries is earliest —
`Counter` insertion order — regardless of the entries' confidences, with
the mean confidence of that plate's supporters. -/
theorem consensus_tie_first_occurrence
    (st : FrameAggregator) (P Q : String) (l₁ l₂ : List String)
    (_hPQ : P ≠ Q)
    (hplates : validPlates st = l₁ ++ P :: l₂)
    (hPl₁ : P ∉ l₁) (hQl₁ : Q ∉ l₁)
    (_htie : (validPlates st).count Q = (validPlates st).count P)
    (hmax : ∀ R ∈ validPlates st, (validPlates st).count R ≤ (validPlates st).count P)
    (honly : ∀ R ∈ validPlates st, R ≠ P → R ≠ Q →
        (validPlates st).count R < (validPlates st).count P)
    (hq : st.threshold ≤ (validPlates st).count P) :
    get_consensus st
      = (some P, (supportConfs st P).sum / ((supportConfs st P).length : ℚ)) := by
  have hvne : ¬((validDetections st).isEmpty = true) := by
    intro h
    rw [List.isEmpty_iff] at h
    rw [validPlates, h] at hplates
    simp at hplates
  have hhne : ¬(st.detection_history.isEmpty = true) := by
    intro h
    rw [List.isEmpty_iff] at h
    apply hvne
    rw [validDetections, h]
    rfl
  have hfind := firstMax_find (validPlates st) l₁ l₂ P Q hplates hPl₁ hQl₁ hmax honly
  unfold get_consensus
  rw [if_neg hhne, if_neg hvne]
  simp only [hfind]
  rw [if_neg (not_lt.mpr hq)]

/-- Witness for claim C6: the tie-break theorem instantiated on the
concrete tied window resolves to plate A with mean confidence 1/10. -/
theorem consensus_tie_first_occurrence_witness :
    get_consensus aggTieC6 = (some ("KA01AB1234"), (1 / 10 + 1 / 10) / 2) := by
  have h := consensus_tie_first_occurrence aggTieC6 ("KA01AB1234") ("MH12CD5678")
    [] [("MH12CD5678"), ("MH12CD5678"), ("KA01AB1234")]
    (by decide) (by rw [validPlates, show validDetections aggTieC6
        = [(("KA01AB1234"), 1/10), (("MH12CD5678"), 9/10),
           (("MH12CD5678"), 9/10), (("KA01AB1234"), 1/10)] from rfl]; rfl)
    (by decide) (by decide) (by decide) (by decide) (by decide) (by decide)
  rw [h, show supportConfs aggTieC6 ("KA01AB1234") = [1/10, 1/10] from rfl]
  refine Prod.ext rfl ?_
  show (1/10 + (1/10 + 0)) / ((2 : ℕ) : ℚ) = (1/10 + 1/10) / 2
  norm_num

/-! ## Claim C7 -/

/-- Claim C7 counterexample: after plate A is confirmed, consensus lapses
to null (previous call's consensus = none), then A regains quorum — the
consensus now differs from the previous call's consensus and is non-null,
so the claim predicts a second confirmation event, but `is_new_plate`
returns false (`last_confirmed` still holds A through the lapse). -/
theorem regained_consensus_no_second_event_cex :
    consensusPlate aggC7s3 = some ("KA01AB1234")
    ∧ consensusPlate aggC7s2 = none
    ∧ consensusPlate aggC7s3 ≠ consensusPlate aggC7s2
    ∧ (is_new_plate aggC7s3).1 = false := by
  decide

/-- Claim C7 (amended): `is_new_plate` is true exactly when the current
consensus is non-null and differs from `last_confirmed` — the plate stored
at the last true transition — not from the previous call's consensus; in
particular a null-consensus call leaves the whole state (including
`last_confirmed`) unchanged, so after a lapse the same plate regaining
quorum does NOT emit a second confirmation event. -/
theorem is_new_plate_last_confirmed_spec :
    (∀ st : FrameAggregator,
        ((is_new_plate st).1 = true ↔
          ((get_consensus st).1.isSome = true
            ∧ (get_consensus st).1 ≠ st.last_confirmed)))
    ∧ (∀ st : FrameAggregator, (get_consensus st).1 = none → (is_new_plate st).2 = st) := by
  constructor
  · intro st
    unfold is_new_plate
    cases hc : (get_consensus st).1 with
    | none => simp
    | some c =>
      by_cases hl : st.last_confirmed = some c
      · simp [hl]
      · simp [hl, Ne, eq_comm]
  · intro st h
    unfold is_new_plate
    rw [h]

/-- Witness for claim C7: a lapsed-consensus call leaves the aggregator
state (and its `last_confirmed` memory) unchanged. -/
theorem is_new_plate_last_confirmed_spec_witness :
    (is_new_plate aggC7s2).2 = aggC7s2 :=
  is_new_plate_last_confirmed_spec.2 aggC7s2 (by decide)

/-! ## Association-list lemmas (dedup memory) -/

theorem alGet_overwrite_self (l : List (String × β)) (k : String) (v : β)
    (h : (alGet l k).isSome = true) :
    alGet (l.map (fun kv => if kv.1 = k then (k, v) else kv)) k = some v := by
  induction l with
  | nil => simp [alGet] at h
  | cons kv rest ih =>
    by_cases hk : kv.1 = k
    · simp [alGet, hk]
    · have h2 : (alGet rest k).isSome = true := by simpa [alGet, hk] using h
      simp [alGet, hk, ih h2]

theorem alGet_append_self (l : List (String × β)) (k : String) (v : β)
    (h : alGet l k = none) :
    alGet (l ++ [(k, v)]) k = some v := by
  induction l with
  | nil => simp [alGet]
  | cons kv rest ih =>
    by_cases hk : kv.1 = k
    · simp [alGet, hk] at h
    · have h2 : alGet rest k = none := by simpa [alGet, hk] using h
      simp [alGet, hk, ih h2]

theorem alGet_alSet_self (l : List (String × β)) (k : String) (v : β) :
    alGet (alSet l k v) k = some v := by
  unfold alSet
  by_cases h : (alGet l k).isSome = true
  · rw [if_pos h]
    exact alGet_overwrite_self l k v h
  · rw [if_neg h]
    exact alGet_append_self l k v (Option.not_isSome_iff_eq_none.mp (by simpa using h))

theorem alGet_map_ne (l : List (String × β)) (k q : String) (v : β) (hq : q ≠ k) :
    alGet (l.map (fun kv => if kv.1 = k then (k, v) else kv)) q = alGet l q := by
  induction l with
  | nil => simp
  | cons kv rest ih =>
    by_cases hk : kv.1 = k
    · have hkq : ¬(kv.1 = q) := by rw [hk]; exact fun h => hq h.symm
      simp [alGet, hk, hkq, show ¬(k = q) from fun h => hq h.symm, ih]
    · simp [alGet, hk, ih]

theorem alGet_append_ne (l : List (String × β)) (k q : String) (v : β) (hq : q ≠ k) :
    alGet (l ++ [(k, v)]) q = alGet l q := by
  induction l with
  | nil => simp [alGet, show ¬(k = q) from fun h => hq h.symm]
  | cons kv rest ih => simp [alGet, ih]

theorem alGet_alSet_ne (l : List (String × β)) (k q : String) (v : β) (hq : q ≠ k) :
    alGet (alSet l k v) q = alGet l q := by
  unfold alSet
  split
  · exact alGet_map_ne l k q v hq
  · exact alGet_append_ne l k q v hq

theorem alGet_alSet_preserved (l : List (String × ℚ)) (k q : String) (v t : ℚ)
    (h : alGet l q = some t) :
    ∃ t2, alGet (alSet l k v) q = some t2 ∧ (t2 = t ∨ t2 = v) := by
  by_cases hq : q = k
  · subst hq
    exact ⟨v, alGet_alSet_self l q v, Or.inr rfl⟩
  · exact ⟨t, by rw [alGet_alSet_ne l k q v hq]; exact h, Or.inl rfl⟩

/-! ## Deduplication-gate call lemmas -/

theorem dedup_first_call (p1 : String) (t1 : ℚ) (h3 : GLOBAL_DETECTION_COOLDOWN ≤ t1) :
    should_process_plate dedupInit p1 t1 = ((true, p1), ⟨[(p1, [])], [(p1, t1)], t1⟩) := by
  have hd : decide ((0:ℚ) ≤ DETECTION_TIME_WINDOW) = true :=
    decide_eq_true (by norm_num [DETECTION_TIME_WINDOW])
  have hng : ¬(t1 - 0 < GLOBAL_DETECTION_COOLDOWN) := by
    rw [sub_zero]; exact not_lt.mpr h3
  unfold should_process_plate dedupInit
  simp only [List.map_nil, List.foldl_nil, Option.getD_none, alGet, alSet,
    Option.isSome_none, Bool.false_eq_true, if_false, List.nil_append, List.filter_cons,
    List.filter_nil, sub_self, hd, if_true, eq_self_iff_true, Option.isSome_some,
    Option.getD_some, List.map_cons, List.length_cons, List.length_nil, hng,
    REQUIRED_DETECTIONS]
  norm_num

theorem dedup_second_call (p1 p2 : String) (t1 t2 : ℚ)
    (hsim : SIMILARITY_THRESHOLD < string_similarity p2 p1)
    (h20 : t2 - t1 < DUPLICATE_IGNORE_SECONDS) :
    (should_process_plate ⟨[(p1, [])], [(p1, t1)], t1⟩ p2 t2).1 = (false, p1) := by
  have hd : decide ((0:ℚ) ≤ DETECTION_TIME_WINDOW) = true :=
    decide_eq_true (by norm_num [DETECTION_TIME_WINDOW])
  have hdup : decide (t2 - t1 < DUPLICATE_IGNORE_SECONDS) = true := decide_eq_true h20
  have h0 : ((0:ℚ) < string_similarity p2 p1) :=
    lt_trans (by norm_num [SIMILARITY_THRESHOLD]) hsim
  unfold should_process_plate
  simp only [List.map_cons, List.map_nil, List.foldl_cons, List.foldl_nil, hsim, h0,
    and_self, if_true, eq_self_iff_true, true_and, and_true, Option.getD_some, alGet,
    alSet, Option.isSome_some, List.filter_cons, List.filter_nil, sub_self, hd, hdup,
    List.length_cons, List.length_nil, REQUIRED_DETECTIONS, List.nil_append,
    Option.getD_none]
  norm_num

theorem dedup_call_dissimilar (p1 p2 : String) (t1 t2 : ℚ)
    (hns : ¬(SIMILARITY_THRESHOLD < string_similarity p2 p1))
    (hne : p1 ≠ p2)
    (h3 : GLOBAL_DETECTION_COOLDOWN ≤ t2 - t1) :
    should_process_plate ⟨[(p1, [])], [(p1, t1)], t1⟩ p2 t2
      = ((true, p2), ⟨[(p1, []), (p2, [])], [(p1, t1), (p2, t2)], t2⟩) := by
  have hd : decide ((0:ℚ) ≤ DETECTION_TIME_WINDOW) = true :=
    decide_eq_true (by norm_num [DETECTION_TIME_WINDOW])
  have hng : ¬(t2 - t1 < GLOBAL_DETECTION_COOLDOWN) := not_lt.mpr h3
  unfold should_process_plate
  simp only [List.map_cons, List.map_nil, List.foldl_cons, List.foldl_nil, hns, hne,
    false_and, if_false, eq_self_iff_true, if_true, and_self, true_and, and_true,
    Option.getD_none, Option.getD_some, alGet, alSet, Option.isSome_none,
    Option.isSome_some, Bool.false_eq_true, List.filter_cons, List.filter_nil,
    sub_self, hd, List.length_cons, List.length_nil, REQUIRED_DETECTIONS, hng,
    List.nil_append, List.append_nil, List.cons_append]
  norm_num

/-! ## Claim C8 -/

/-- Claim C8: starting from an empty deduplication memory, a first call for
plate p1 (past the global cooldown) is accepted; a second call whose plate
is similar to p1 above the 0.85 threshold and arrives within the
duplicate-ignore interval resolves its target to the STORED key p1 (not
the new string) and is rejected — so at most one of the two calls returns
accept = true. -/
theorem dedup_two_calls (p1 p2 : String) (t1 t2 : ℚ)
    (h3 : GLOBAL_DETECTION_COOLDOWN ≤ t1)
    (h20 : t2 - t1 < DUPLICATE_IGNORE_SECONDS)
    (hsim : SIMILARITY_THRESHOLD < string_similarity p2 p1) :
    (should_process_plate dedupInit p1 t1).1 = (true, p1)
    ∧ (should_process_plate (should_process_plate dedupInit p1 t1).2 p2 t2).1
        = (false, p1) := by
  have h1 := dedup_first_call p1 t1 h3
  refine ⟨by rw [h1], ?_⟩
  rw [h1]
  exact dedup_second_call p1 p2 t1 t2 hsim h20

set_option maxRecDepth 20000 in
/-- Witness for claim C8: the spec's own example KA01AB1234 followed by its
single-character OCR variant KA0lAB1234 (similarity 9/10 > 0.85) five
seconds later: the first call is accepted, the second resolves to
KA01AB1234 and is rejected. -/
theorem dedup_two_calls_witness :
    (should_process_plate dedupInit ("KA01AB1234") 5).1 = (true, ("KA01AB1234"))
    ∧ (should_process_plate (should_process_plate dedupInit ("KA01AB1234") 5).2
        ("KA0lAB1234") 10).1 = (false, ("KA01AB1234")) := by
  have hM : matchTotal (("KA0lAB1234").toList.length + ("KA01AB1234").toList.length + 1)
      (("KA0lAB1234").toList) (("KA01AB1234").toList)
      0 (("KA0lAB1234").toList.length) 0 (("KA01AB1234").toList.length) = 9 := rfl
  have hsim : SIMILARITY_THRESHOLD < string_similarity ("KA0lAB1234") ("KA01AB1234") := by
    unfold string_similarity
    rw [if_neg (by decide), hM,
      show (("KA0lAB1234").toList.length + ("KA01AB1234").toList.length) = 20 from rfl]
    norm_num [SIMILARITY_THRESHOLD]
  exact dedup_two_calls ("KA01AB1234") ("KA0lAB1234") 5 10
    (by norm_num [GLOBAL_DETECTION_COOLDOWN]) (by norm_num [DUPLICATE_IGNORE_SECONDS]) hsim

/-! ## Claim C9 -/

set_option maxRecDepth 20000 in
/-- Claim C9 counterexample: plate KA01AB1234 is accepted at t = 5 s; a
dissimilar plate is processed at t = 1000 s.  After that call the
last-action entry for KA01AB1234 still carries timestamp 5 — 995 s old,
far beyond both the 20 s duplicate-ignore horizon and the 10 s detection
window.  Nothing is ever purged from `processed_plates`. -/
theorem stale_processed_entry_cex :
    alGet st9b.processed_plates ("KA01AB1234") = some 5
    ∧ DUPLICATE_IGNORE_SECONDS < 1000 - 5
    ∧ DETECTION_TIME_WINDOW < 1000 - 5 := by
  have h1 := dedup_first_call ("KA01AB1234") 5 (by norm_num [GLOBAL_DETECTION_COOLDOWN])
  have hM : matchTotal (("QQQQQQQQQQ").toList.length + ("KA01AB1234").toList.length + 1)
      (("QQQQQQQQQQ").toList) (("KA01AB1234").toList)
      0 (("QQQQQQQQQQ").toList.length) 0 (("KA01AB1234").toList.length) = 0 := rfl
  have hsim0 : string_similarity ("QQQQQQQQQQ") ("KA01AB1234") = 0 := by
    unfold string_similarity
    rw [if_neg (by decide), hM,
      show (("QQQQQQQQQQ").toList.length + ("KA01AB1234").toList.length) = 20 from rfl]
    norm_num
  have h2 := dedup_call_dissimilar ("KA01AB1234") ("QQQQQQQQQQ") 5 1000
    (by rw [hsim0]; norm_num [SIMILARITY_THRESHOLD]) (by decide)
    (by norm_num [GLOBAL_DETECTION_COOLDOWN])
  have hst : st9b.processed_plates
      = [(("KA01AB1234"), 5), (("QQQQQQQQQQ"), 1000)] := by
    show ((should_process_plate st9a ("QQQQQQQQQQ") 1000).2).processed_plates = _
    rw [show st9a = ⟨[(("KA01AB1234"), [])], [(("KA01AB1234"), 5)], 5⟩ by
      show (should_process_plate dedupInit ("KA01AB1234") 5).2 = _
      rw [h1]]
    rw [h2]
  rw [hst]
  refine ⟨by simp [alGet], by norm_num [DUPLICATE_IGNORE_SECONDS],
    by norm_num [DETECTION_TIME_WINDOW]⟩

/-- Claim C9 (amended): `should_process_plate` never removes a
`processed_plates` entry — every per-plate last-action timestamp present
before a call is still present afterwards, either unchanged or overwritten
with the current time (only the resolved target plate's detection-time
list is pruned, to the 10 s detection window). -/
theorem processed_entries_never_purged (st : DedupState) (p : String) (now : ℚ)
    (q : String) (t : ℚ) (h : alGet st.processed_plates q = some t) :
    ∃ t2, alGet ((should_process_plate st p now).2).processed_plates q = some t2
      ∧ (t2 = t ∨ t2 = now) := by
  unfold should_process_plate
  dsimp only
  split_ifs <;>
    first
      | exact ⟨t, h, Or.inl rfl⟩
      | exact alGet_alSet_preserved st.processed_plates _ q now t h

/-- Witness for claim C9: an entry stamped 5 survives a later call at time
1000 for a different plate. -/
theorem processed_entries_never_purged_witness :
    ∃ t2, alGet ((should_process_plate stMemC9 ("MH12CD5678") 1000).2).processed_plates
        ("KA01AB1234") = some t2 ∧ (t2 = 5 ∨ t2 = 1000) :=
  processed_entries_never_purged stMemC9 ("MH12CD5678") 1000 ("KA01AB1234") 5 (by decide)

/-! ## Payment lemmas and claim C10 -/

theorem setPaidFirst_of_decomp (i : Nat) (l₁ l₂ : List Txn) (t : Txn)
    (h₁ : ∀ x ∈ l₁, (decide (x.id = i) : Bool) = false) (ht : t.id = i) :
    setPaidFirst (l₁ ++ t :: l₂) i
      = l₁ ++ { t with payment_status := PayStatus.paid } :: l₂ := by
  induction l₁ with
  | nil => simp [setPaidFirst, ht]
  | cons x xs ih =>
    have hx : ¬(x.id = i) := by simpa using h₁ x (by simp)
    simp only [List.cons_append, setPaidFirst, hx, if_false]
    exact congrArg (x :: ·) (ih (fun y hy => h₁ y (by simp [hy])))

/-- Claim C10: `process_payment` fails with NOT_FOUND exactly when no
transaction carries the id; when one does, it unconditionally sets that
transaction's payment status to paid — open or already paid alike —
leaving its every other field, every other transaction and all slots
unchanged, and a repeated call is idempotent. -/
theorem process_payment_spec :
    (∀ (st : Ledger) (i : Nat),
        st.txns.find? (fun u => decide (u.id = i)) = none →
        process_payment st i = (PaymentResult.notFound, st))
    ∧ (∀ (st : Ledger) (i : Nat) (t : Txn),
        st.txns.find? (fun u => decide (u.id = i)) = some t →
        (process_payment st i).1 = PaymentResult.paid
        ∧ (process_payment st i).2.slots = st.slots
        ∧ (process_payment st i).2.next_txn_id = st.next_txn_id
        ∧ ∃ l₁ l₂, st.txns = l₁ ++ t :: l₂
            ∧ (∀ u ∈ l₁, u.id ≠ i)
            ∧ (process_payment st i).2.txns
                = l₁ ++ { t with payment_status := PayStatus.paid } :: l₂)
    ∧ (∀ (st : Ledger) (i : Nat),
        process_payment ((process_payment st i).2) i
          = ((process_payment st i).1, (process_payment st i).2)) := by
  refine ⟨?_, ?_, ?_⟩
  · intro st i h
    unfold process_payment
    rw [h]
  · intro st i t h
    obtain ⟨l₁, l₂, hdec, hl₁⟩ := find?_decomp _ _ _ h
    have ht : t.id = i := by simpa using List.find?_some h
    have hpp : process_payment st i
        = (PaymentResult.paid, { st with txns := setPaidFirst st.txns i }) := by
      unfold process_payment
      rw [h]
    have hset : setPaidFirst st.txns i
        = l₁ ++ { t with payment_status := PayStatus.paid } :: l₂ := by
      rw [hdec]
      exact setPaidFirst_of_decomp i l₁ l₂ t hl₁ ht
    rw [hpp]
    exact ⟨rfl, rfl, rfl, l₁, l₂, hdec, fun u hu => by simpa using hl₁ u hu, hset⟩
  · intro st i
    cases h : st.txns.find? (fun u => decide (u.id = i)) with
    | none =>
      have h1 : process_payment st i = (PaymentResult.notFound, st) := by
        unfold process_payment
        rw [h]
      rw [h1]
      exact h1
    | some t =>
      obtain ⟨l₁, l₂, hdec, hl₁⟩ := find?_decomp _ _ _ h
      have ht : t.id = i := by simpa using List.find?_some h
      have hpp : process_payment st i
          = (PaymentResult.paid, { st with txns := setPaidFirst st.txns i }) := by
        unfold process_payment
        rw [h]
      have hset : setPaidFirst st.txns i
          = l₁ ++ { t with payment_status := PayStatus.paid } :: l₂ := by
        rw [hdec]
        exact setPaidFirst_of_decomp i l₁ l₂ t hl₁ ht
      have hfind2 : (l₁ ++ { t with payment_status := PayStatus.paid } :: l₂).find?
          (fun u => decide (u.id = i))
          = some { t with payment_status := PayStatus.paid } :=
        find?_of_decomp _ l₁ l₂ _ hl₁ (by simpa using ht)
      have hset2 : setPaidFirst (l₁ ++ { t with payment_status := PayStatus.paid } :: l₂) i
          = l₁ ++ { t with payment_status := PayStatus.paid } :: l₂ :=
        setPaidFirst_of_decomp i l₁ l₂ { t with payment_status := PayStatus.paid } hl₁ ht
      rw [hpp]
      unfold process_payment
      simp only [hset, hfind2, hset2]

/-- Witness for claim C10: paying the still-open transaction 2 succeeds,
marks exactly it paid, and a second payment call changes nothing. -/
theorem process_payment_spec_witness :
    (process_payment stPayC10 2).1 = PaymentResult.paid
    ∧ (process_payment stPayC10 2).2.slots = stPayC10.slots
    ∧ process_payment ((process_payment stPayC10 2).2) 2
        = ((process_payment stPayC10 2).1, (process_payment stPayC10 2).2)
    ∧ process_payment stPayC10 7 = (PaymentResult.notFound, stPayC10) := by
  refine ⟨(process_payment_spec.2.1 stPayC10 2
      ⟨2, ("MH12CD5678"), some 1, 100, none, none, none, PayStatus.pending⟩ (by decide)).1,
    (process_payment_spec.2.1 stPayC10 2
      ⟨2, ("MH12CD5678"), some 1, 100, none, none, none, PayStatus.pending⟩ (by decide)).2.1,
    process_payment_spec.2.2 stPayC10 2,
    process_payment_spec.1 stPayC10 7 (by decide)⟩

end SmartParking
